import Mathlib

/-!
Verification of the artifact I/O and configuration-loading helpers of the
CustomerAnalytics repository (src/src/utils.py).

The embedding models:
  * Python values (`PyObj`) as returned by `pickle.load` / `yaml.safe_load`;
  * pandas DataFrames abstractly, together with the CSV text `to_csv` renders;
  * the filesystem as a set of existing directories plus a map from resolved
    absolute paths to file contents;
  * `os.path` semantics: paths are lists of components, `os.path.join` is list
    append, and a literal ".." component is resolved (as the OS does when the
    path is used) by dropping the preceding component.

The five functions under study are translated statement by statement:
`save_dataframe_to_csv`, `save_dict_to_excel`, `read_config`,
`export_to_pickle`, `load_pickle_object`.  Plotting wrappers have no
persistent effect and are out of scope.
-/

/-- A Python value, as produced by `pickle.load` or `yaml.safe_load`:
`None`, booleans, integers, strings, lists and string-keyed dicts. -/
inductive PyObj where
  | none
  | bool (b : Bool)
  | int (n : Int)
  | str (s : String)
  | list (xs : List PyObj)
  | dict (kvs : List (String × PyObj))

/-- A pandas DataFrame, abstracted to its header and its rows of rendered
cell texts (the only view the exporters use). -/
structure DataFrame where
  columns : List String
  rows : List (List String)
  deriving DecidableEq

/-- The CSV text `df.to_csv(path, index=False)` writes: a header line of the
column names followed by one comma-separated line per row. -/
def DataFrame.toCsv (df : DataFrame) : String :=
  String.intercalate "\n"
    (String.intercalate "," df.columns :: df.rows.map (String.intercalate ","))

/-- Content of a file on disk, tagged by the serialization that produced it:
a pickled Python object, CSV text, a multi-sheet Excel workbook, a YAML
document, or uninterpreted bytes. -/
inductive FileData where
  | pickled (o : PyObj)
  | csvText (s : String)
  | excel (sheets : List (String × DataFrame))
  | yamlDoc (v : PyObj)
  | raw (s : String)

/-- A filesystem path, as a list of components from the root. -/
abbrev FilePath2 := List String

/-- One resolution step: a ".." component drops the last component already
accumulated (at the root, ".." stays at the root, as on POSIX); any other
component is appended. -/
def resolveComp (acc : FilePath2) (c : String) : FilePath2 :=
  if c = ".." then acc.dropLast else acc ++ [c]

/-- Resolve an absolute path containing literal ".." components, as the
operating system does when `os.path.exists`, `os.makedirs` or `open` receive
the joined string. -/
def resolvePath (p : List String) : FilePath2 :=
  p.foldl resolveComp []

/-- The string `os.path.join` produces from an absolute path's components,
before any ".." resolution (this is the string Python prints and embeds in
error messages). -/
def joinStr (p : List String) : String :=
  "/" ++ String.intercalate "/" p

/-- The filesystem: the set of directories that exist and a finite map from
resolved absolute file paths to their contents. -/
structure FS where
  dirs : List FilePath2
  files : List (FilePath2 × FileData)

/-- whether `os.path.exists` answers true at a resolved path: either a
directory or a file is present there. -/
def FS.existsPath (fs : FS) (p : FilePath2) : Bool :=
  fs.dirs.contains p || fs.files.any (fun f => f.1 == p)

/-- All the directories `os.makedirs` brings into existence for a target:
the target and every ancestor of it. -/
def ancestorDirs (p : FilePath2) : List FilePath2 :=
  (List.range (p.length + 1)).map (fun n => p.take n)

/-- the effect of `os.makedirs(p)`: the directory and all its ancestors now
exist. -/
def FS.makedirs (fs : FS) (p : FilePath2) : FS :=
  { fs with dirs := ancestorDirs p ++ fs.dirs }

/-- the effect of writing file data at a resolved path, overwriting any
previous file there. -/
def FS.write (fs : FS) (p : FilePath2) (d : FileData) : FS :=
  { fs with files := (p, d) :: fs.files.filter (fun f => f.1 ≠ p) }

/-- the content `open(p, "rb").read()` yields, when a file exists at the
resolved path. -/
def FS.lookup (fs : FS) (p : FilePath2) : Option FileData :=
  (fs.files.find? (fun f => f.1 == p)).map (fun f => f.2)

/-- Python's `s.endswith(t)` test: the characters of `t` are a suffix of the
characters of `s`. -/
def strEndsWith (s t : String) : Bool :=
  t.toList.isSuffixOf s.toList

/-- `save_dataframe_to_csv(df, file_name, folder)` (src/src/utils.py lines
11-32): appends ".csv" unless `file_name` already ends with it, creates
`folder` (resolved against the working directory `cwd`) if missing, joins
folder and file name, and writes the CSV rendering there.  Returns the new
filesystem and the resolved path written. -/
def save_dataframe_to_csv (fs : FS) (cwd : FilePath2) (df : DataFrame)
    (file_name : String) (folder : String) : FS × FilePath2 :=
  let file_name := if strEndsWith file_name ".csv" then file_name
    else file_name ++ ".csv"
  let folderPath := resolvePath (cwd ++ [folder])
  let fs := if fs.existsPath folderPath then fs else fs.makedirs folderPath
  let file_path := folderPath ++ [file_name]
  (fs.write file_path (FileData.csvText df.toCsv), file_path)

/-- `save_dict_to_excel(data_dict, file_name, folder)` (lines 34-58): appends
".xlsx" unless already a suffix, creates `folder` if missing, and writes one
sheet per dictionary entry at the joined path. -/
def save_dict_to_excel (fs : FS) (cwd : FilePath2)
    (data_dict : List (String × DataFrame)) (file_name : String)
    (folder : String) : FS × FilePath2 :=
  let file_name := if strEndsWith file_name ".xlsx" then file_name
    else file_name ++ ".xlsx"
  let folderPath := resolvePath (cwd ++ [folder])
  let fs := if fs.existsPath folderPath then fs else fs.makedirs folderPath
  let file_path := folderPath ++ [file_name]
  (fs.write file_path (FileData.excel data_dict), file_path)

/-- `read_config(config_file_name, config_folder)` (lines 60-87): forms
`base_folder` as the directory of utils.py joined with "..", joins it with
the folder and the file name verbatim, raises FileNotFoundError carrying the
attempted path string when nothing exists there, and otherwise returns the
YAML document parsed by `yaml.safe_load`.  `srcDir` is the resolved absolute
directory of utils.py (`os.path.abspath(os.path.dirname(__file__))`). -/
def read_config (fs : FS) (srcDir : FilePath2)
    (config_file_name : String)
    (config_folder : String) : Except String PyObj :=
  let base_folder := srcDir ++ [".."]
  let config_path := base_folder ++ [config_folder, config_file_name]
  if ¬ fs.existsPath (resolvePath config_path) then
    Except.error ("Configuration file not found: " ++ joinStr config_path)
  else
    match fs.lookup (resolvePath config_path) with
    | some (FileData.yamlDoc v) => Except.ok v
    | some _ => Except.error "yaml.parser.ParserError"
    | Option.none => Except.error "IsADirectoryError"

/-- the directory `export_to_pickle` and `load_pickle_object` both target
(line 265 and line 277): the working directory joined with "..", "Data" and
the folder, as resolved by the OS. -/
def pickleDir (cwd : FilePath2) (folder : String) : FilePath2 :=
  resolvePath (cwd ++ ["..", "Data", folder])

/-- Python's substring containment test `needle in hay` on character lists:
true exactly when `needle` occurs contiguously somewhere in `hay`. -/
def subOcc (needle : List Char) : List Char → Bool
  | [] => needle.isEmpty
  | c :: t => needle.isPrefixOf (c :: t) || subOcc needle t

/-- Python's `needle in hay` on strings. -/
def strContains (hay needle : String) : Bool :=
  subOcc needle.toList hay.toList

/-- the file name both pickle helpers use (lines 264 and 276): ".pickle" is
appended exactly when the substring ".pickle" occurs nowhere in the name
(Python's `in` test on strings). -/
def pickleName (filename : String) : String :=
  if strContains filename ".pickle" then filename
  else filename ++ ".pickle"

/-- `export_to_pickle(object, filename, folder)` (lines 263-273): normalizes
the name by substring containment, forms the directory under
`cwd/../Data/folder`, creates it if missing, and dumps the pickled object at
the joined path.  Returns the new filesystem and the resolved path written. -/
def export_to_pickle (fs : FS) (cwd : FilePath2) (object : PyObj)
    (filename : String) (folder : String) : FS × FilePath2 :=
  let filename := pickleName filename
  let filepath := pickleDir cwd folder
  let fs := if fs.existsPath filepath then fs else fs.makedirs filepath
  let filepath := filepath ++ [filename]
  (fs.write filepath (FileData.pickled object), filepath)

/-- `load_pickle_object(filename, folder)` (lines 275-284): normalizes the
name the same way, forms the same path, and if nothing exists there prints a
notice and falls off the function with a bare `return` (value `None`);
otherwise unpickles the file.  An unpickleable file raises (error case). -/
def load_pickle_object (fs : FS) (cwd : FilePath2) (filename : String)
    (folder : String) : Except String PyObj :=
  let filename := pickleName filename
  let filepath := pickleDir cwd folder ++ [filename]
  if ¬ fs.existsPath filepath then
    Except.ok PyObj.none
  else
    match fs.lookup filepath with
    | some (FileData.pickled o) => Except.ok o
    | some _ => Except.error "UnpicklingError"
    | Option.none => Except.error "IsADirectoryError"

/-! ### Path-resolution lemmas -/

theorem foldl_resolveComp_of_not_mem (p : List String) (acc : FilePath2)
    (h : ".." ∉ p) : p.foldl resolveComp acc = acc ++ p := by
  induction p generalizing acc with
  | nil => simp only [List.foldl_nil, List.append_nil]
  | cons c t ih =>
    have hc : ¬ c = ".." := fun hcc => h (hcc ▸ List.mem_cons_self c t)
    have ht : ".." ∉ t := fun hm => h (List.mem_cons_of_mem c hm)
    have hstep : resolveComp acc c = acc ++ [c] := by
      simp only [resolveComp, if_neg hc]
    rw [List.foldl_cons, hstep, ih _ ht, List.append_assoc,
      List.singleton_append]

theorem resolvePath_of_not_mem (p : List String) (h : ".." ∉ p) :
    resolvePath p = p := by
  simpa [resolvePath] using foldl_resolveComp_of_not_mem p [] h

theorem resolvePath_append (p q : List String) :
    resolvePath (p ++ q) = q.foldl resolveComp (resolvePath p) := by
  simp [resolvePath, List.foldl_append]

/-- the destination directory of the pickle helpers, with ".." resolved: one
level up from the working directory, then Data, then the folder. -/
theorem pickleDir_eq (cwd : FilePath2) (folder : String)
    (hc : ".." ∉ cwd) (hf : ¬ folder = "..") :
    pickleDir cwd folder = cwd.dropLast ++ ["Data", folder] := by
  have hData : ¬ "Data" = ".." := by decide
  simp only [pickleDir, resolvePath_append, resolvePath_of_not_mem cwd hc,
    List.foldl_cons, List.foldl_nil, resolveComp, if_neg hData,
    if_neg hf, List.append_assoc, List.singleton_append]
  simp

/-! ### Filesystem lemmas -/

theorem FS.lookup_write_self (fs : FS) (p : FilePath2) (d : FileData) :
    (fs.write p d).lookup p = some d := by
  simp [FS.write, FS.lookup]

theorem FS.existsPath_write_self (fs : FS) (p : FilePath2) (d : FileData) :
    (fs.write p d).existsPath p = true := by
  simp [FS.write, FS.existsPath]

theorem FS.existsPath_write_mono (fs : FS) (p q : FilePath2) (d : FileData)
    (h : fs.existsPath q = true) : (fs.write p d).existsPath q = true := by
  simp only [FS.existsPath, FS.write, Bool.or_eq_true, List.any_eq_true] at h ⊢
  rcases h with h | ⟨f, hf, hfq⟩
  · exact Or.inl h
  · by_cases hfp : f.1 = p
    · refine Or.inr ⟨(p, d), List.mem_cons_self _ _, ?_⟩
      simpa [hfp] using hfq
    · exact Or.inr ⟨f, List.mem_cons_of_mem _ (List.mem_filter.2 ⟨hf, by
        simpa using hfp⟩), hfq⟩

theorem FS.existsPath_makedirs_self (fs : FS) (p : FilePath2) :
    (fs.makedirs p).existsPath p = true := by
  simp only [FS.makedirs, FS.existsPath, Bool.or_eq_true]
  refine Or.inl ?_
  simp only [List.contains_eq_any_beq, List.any_eq_true, beq_iff_eq]
  refine ⟨p, List.mem_append_left _ ?_, rfl⟩
  simp only [ancestorDirs, List.mem_map, List.mem_range]
  exact ⟨p.length, Nat.lt_succ_self _, List.take_length p⟩

theorem FS.existsPath_makedirs_ancestor (fs : FS) (p : FilePath2) (n : Nat)
    (hn : n ≤ p.length) : (fs.makedirs p).existsPath (p.take n) = true := by
  simp only [FS.makedirs, FS.existsPath, Bool.or_eq_true]
  refine Or.inl ?_
  simp only [List.contains_eq_any_beq, List.any_eq_true, beq_iff_eq]
  refine ⟨p.take n, List.mem_append_left _ ?_, rfl⟩
  simp only [ancestorDirs, List.mem_map, List.mem_range]
  exact ⟨n, Nat.lt_succ_of_le hn, rfl⟩

theorem FS.existsPath_of_lookup (fs : FS) (p : FilePath2) (d : FileData)
    (h : fs.lookup p = some d) : fs.existsPath p = true := by
  simp only [FS.lookup, Option.map_eq_some'] at h
  rcases h with ⟨f, hf, -⟩
  have hm := List.find?_some hf
  have hmem := List.mem_of_find?_eq_some hf
  simp only [FS.existsPath, Bool.or_eq_true, List.any_eq_true]
  exact Or.inr ⟨f, hmem, hm⟩

theorem append_singleton_ne (l : List String) (a : String) : ¬ l ++ [a] = l := by
  intro h
  have hlen := congrArg List.length h
  simp at hlen

theorem subOcc_eq_true_iff (needle hay : List Char) :
    subOcc needle hay = true ↔ needle <:+: hay := by
  induction hay with
  | nil =>
    simp [subOcc, List.isEmpty_iff, List.infix_nil]
  | cons c t ih =>
    simp [subOcc, ih, List.infix_cons_iff]

theorem strContains_eq_true_iff (hay needle : String) :
    strContains hay needle = true ↔ needle.toList <:+: hay.toList :=
  subOcc_eq_true_iff needle.toList hay.toList

/-- the spec sentence of claim C1 read literally: a destination two levels up
from the working directory, then into Data/<folder>/<name>. -/
def specPickleDestTwoUp (cwd : FilePath2) (folder name : String) : FilePath2 :=
  cwd.dropLast.dropLast ++ ["Data", folder, name]

/-- Claim C1, counterexample: with the working directory /home/user/proj,
exporting object None under name "model" into folder "artifacts" writes to
/home/user/Data/artifacts/model.pickle, which is not the path two levels up
from the working directory that the claim describes
(/home/Data/artifacts/model.pickle). -/
theorem export_to_pickle_not_two_levels_up :
    ¬ (export_to_pickle ⟨[], []⟩ ["home", "user", "proj"] PyObj.none
          "model" "artifacts").2
        = specPickleDestTwoUp ["home", "user", "proj"] "artifacts"
            "model.pickle" := by
  decide

/-- Claim C1 (amended): for every filesystem, object, name and folder, and
every working directory free of ".." components (as `os.getcwd` returns) with
a folder name that is not "..", `export_to_pickle` writes the pickled object
to the destination ONE level up from the current working directory, into
Data/<folder>/<name with the ".pickle" suffix normalization applied>, and the
destination directory exists afterwards (created if missing). -/
theorem export_to_pickle_one_level_up (fs : FS) (cwd : FilePath2)
    (obj : PyObj) (name folder : String)
    (hc : ".." ∉ cwd) (hf : ¬ folder = "..") :
    (export_to_pickle fs cwd obj name folder).2
        = cwd.dropLast ++ ["Data", folder, pickleName name] ∧
      (export_to_pickle fs cwd obj name folder).1.lookup
          (cwd.dropLast ++ ["Data", folder, pickleName name])
        = some (FileData.pickled obj) ∧
      (export_to_pickle fs cwd obj name folder).1.existsPath
          (cwd.dropLast ++ ["Data", folder]) = true := by
  have hdir := pickleDir_eq cwd folder hc hf
  have hsplit : cwd.dropLast ++ ["Data", folder, pickleName name]
      = (cwd.dropLast ++ ["Data", folder]) ++ [pickleName name] := by
    simp
  simp only [export_to_pickle, hdir, hsplit]
  refine ⟨by trivial, FS.lookup_write_self _ _ _, ?_⟩
  by_cases hex : fs.existsPath (cwd.dropLast ++ ["Data", folder]) = true
  · rw [if_pos hex]
    exact FS.existsPath_write_mono _ _ _ _ hex
  · rw [if_neg hex]
    exact FS.existsPath_write_mono _ _ _ _
      (FS.existsPath_makedirs_self _ _)

/-- Claim C1 witness: a concrete run at working directory /home/user/proj. -/
theorem export_to_pickle_one_level_up_witness :
    (export_to_pickle ⟨[], []⟩ ["home", "user", "proj"] PyObj.none
        "model" "artifacts").2
      = ["home", "user"] ++ ["Data", "artifacts", pickleName "model"] :=
  (export_to_pickle_one_level_up ⟨[], []⟩ ["home", "user", "proj"]
    PyObj.none "model" "artifacts" (by decide) (by decide)).1

/-- Claim C2: exporting any object under a name and then loading that name
back (same working directory, same folder) returns exactly the exported
object: the normalized file name and the resolved path agree between the two
helpers, and unpickling inverts pickling. -/
theorem export_load_pickle_roundtrip (fs : FS) (cwd : FilePath2) (x : PyObj)
    (name folder : String) :
    load_pickle_object (export_to_pickle fs cwd x name folder).1 cwd name
        folder = Except.ok x := by
  simp only [export_to_pickle, load_pickle_object]
  rw [if_neg (by simp [FS.existsPath_write_self])]
  rw [FS.lookup_write_self]

/-- Claim C4: when nothing exists at the resolved pickle path,
`load_pickle_object` does not raise: it returns Python's None (the bare
`return`) after printing a notice. -/
theorem load_pickle_object_missing (fs : FS) (cwd : FilePath2)
    (name folder : String)
    (h : fs.existsPath (pickleDir cwd folder ++ [pickleName name]) = false) :
    load_pickle_object fs cwd name folder = Except.ok PyObj.none := by
  simp only [load_pickle_object]
  rw [if_pos (by simp [h])]

/-- Claim C4 witness: loading a never-exported name from an empty filesystem
returns None. -/
theorem load_pickle_object_missing_witness :
    load_pickle_object ⟨[], []⟩ ["home", "user", "proj"] "never_exported"
        "artifacts" = Except.ok PyObj.none :=
  load_pickle_object_missing ⟨[], []⟩ ["home", "user", "proj"]
    "never_exported" "artifacts" (by decide)

theorem configPath_eq (srcDir : FilePath2) (folder name : String)
    (hs : ".." ∉ srcDir) (hf : ¬ folder = "..") (hn : ¬ name = "..") :
    resolvePath (srcDir ++ [".."] ++ [folder, name])
      = srcDir.dropLast ++ [folder, name] := by
  have h1 : resolvePath (srcDir ++ [".."]) = srcDir.dropLast := by
    rw [resolvePath_append, resolvePath_of_not_mem srcDir hs]
    simp [resolveComp]
  rw [resolvePath_append, h1]
  simp only [List.foldl_cons, List.foldl_nil, resolveComp, if_neg hf,
    if_neg hn]
  simp

theorem read_config_missing_aux (fs : FS) (srcDir : FilePath2)
    (name folder : String)
    (hs : ".." ∉ srcDir) (hf : ¬ folder = "..") (hn : ¬ name = "..")
    (hmiss : fs.existsPath (srcDir.dropLast ++ [folder, name]) = false) :
    read_config fs srcDir name folder
      = Except.error ("Configuration file not found: "
          ++ joinStr (srcDir ++ [".."] ++ [folder, name])) := by
  have hpath := configPath_eq srcDir folder name hs hf hn
  simp only [read_config, hpath]
  rw [if_pos (by simp [hmiss])]

theorem read_config_found_aux (fs : FS) (srcDir : FilePath2)
    (name folder : String) (v : PyObj)
    (hs : ".." ∉ srcDir) (hf : ¬ folder = "..") (hn : ¬ name = "..")
    (hlook : fs.lookup (srcDir.dropLast ++ [folder, name])
      = some (FileData.yamlDoc v)) :
    read_config fs srcDir name folder = Except.ok v := by
  have hpath := configPath_eq srcDir folder name hs hf hn
  have hex := FS.existsPath_of_lookup fs _ _ hlook
  simp only [read_config, hpath]
  rw [if_neg (by simp [hex]), hlook]

/-- Claim C3: for every file name and config folder (no ".." components in
play), `read_config` resolves the configuration path one level up from the
loader's own source directory, then into the config folder, the file name
joined verbatim; when nothing exists at the resolved path it raises
FileNotFoundError whose message carries the attempted path string; when a
YAML file is there it parses it and returns the document verbatim. -/
theorem read_config_resolution (fs : FS) (srcDir : FilePath2)
    (name folder : String)
    (hs : ".." ∉ srcDir) (hf : ¬ folder = "..") (hn : ¬ name = "..") :
    (resolvePath (srcDir ++ [".."] ++ [folder, name])
        = srcDir.dropLast ++ [folder, name]) ∧
    (fs.existsPath (srcDir.dropLast ++ [folder, name]) = false →
      read_config fs srcDir name folder
        = Except.error ("Configuration file not found: "
            ++ joinStr (srcDir ++ [".."] ++ [folder, name]))) ∧
    (∀ v, fs.lookup (srcDir.dropLast ++ [folder, name])
        = some (FileData.yamlDoc v) →
      read_config fs srcDir name folder = Except.ok v) :=
  ⟨configPath_eq srcDir folder name hs hf hn,
    read_config_missing_aux fs srcDir name folder hs hf hn,
    fun v => read_config_found_aux fs srcDir name folder v hs hf hn⟩

/-- Claim C3 witness: on an empty filesystem, asking for config.yaml fails
with the FileNotFoundError message carrying the attempted path string. -/
theorem read_config_resolution_witness :
    read_config ⟨[], []⟩ ["repo", "src"] "config.yaml" "Config"
      = Except.error ("Configuration file not found: "
          ++ joinStr (["repo", "src"] ++ [".."] ++ ["Config", "config.yaml"]))
    :=
  (read_config_resolution ⟨[], []⟩ ["repo", "src"] "config.yaml" "Config"
    (by decide) (by decide) (by decide)).2.1 (by decide)

/-- Claim C10: `read_config` applies no suffix normalization: the file name
is joined verbatim, so "config" and "config.yaml" resolve different paths,
and with only config.yaml present the call for "config" raises the not-found
failure while the call for "config.yaml" succeeds. -/
theorem read_config_no_suffix_norm (fs : FS) (srcDir : FilePath2) (v : PyObj)
    (hs : ".." ∉ srcDir)
    (hyaml : fs.lookup (srcDir.dropLast ++ ["Config", "config.yaml"])
      = some (FileData.yamlDoc v))
    (hmiss : fs.existsPath (srcDir.dropLast ++ ["Config", "config"])
      = false) :
    (¬ resolvePath (srcDir ++ [".."] ++ ["Config", "config"])
        = resolvePath (srcDir ++ [".."] ++ ["Config", "config.yaml"])) ∧
    read_config fs srcDir "config.yaml" "Config" = Except.ok v ∧
    read_config fs srcDir "config" "Config"
      = Except.error ("Configuration file not found: "
          ++ joinStr (srcDir ++ [".."] ++ ["Config", "config"])) := by
  refine ⟨?_, ?_, ?_⟩
  · rw [configPath_eq srcDir "Config" "config" hs (by decide) (by decide),
      configPath_eq srcDir "Config" "config.yaml" hs (by decide) (by decide)]
    intro h
    have h2 := List.append_cancel_left h
    simp at h2
  · exact read_config_found_aux fs srcDir "config.yaml" "Config" v hs
      (by decide) (by decide) hyaml
  · exact read_config_missing_aux fs srcDir "config" "Config" hs
      (by decide) (by decide) hmiss

/-- Claim C10 witness: a filesystem holding only /repo/Config/config.yaml. -/
theorem read_config_no_suffix_norm_witness :
    read_config
        ⟨[], [(["repo", "Config", "config.yaml"], FileData.yamlDoc (PyObj.int 1))]⟩
        ["repo", "src"] "config" "Config"
      = Except.error ("Configuration file not found: "
          ++ joinStr (["repo", "src"] ++ [".."] ++ ["Config", "config"])) :=
  (read_config_no_suffix_norm
    ⟨[], [(["repo", "Config", "config.yaml"], FileData.yamlDoc (PyObj.int 1))]⟩
    ["repo", "src"] (PyObj.int 1) (by decide) rfl (by decide)).2.2

/-- Claim C5: CSV suffix normalization by `endswith`: the names "report" and
"report.csv" produce the identical destination path, and in general a name
already ending in ".csv" is used unchanged while any other name gets ".csv"
appended. -/
theorem save_csv_suffix_norm (fs : FS) (cwd : FilePath2) (df : DataFrame)
    (name folder : String) :
    (save_dataframe_to_csv fs cwd df "report" folder).2
        = (save_dataframe_to_csv fs cwd df "report.csv" folder).2 ∧
    (save_dataframe_to_csv fs cwd df name folder).2
        = resolvePath (cwd ++ [folder])
            ++ [if strEndsWith name ".csv" then name
                else name ++ ".csv"] := by
  constructor
  · have h1 : strEndsWith "report" ".csv" = false := by decide
    have h2 : strEndsWith "report.csv" ".csv" = true := by decide
    simp only [save_dataframe_to_csv, h1, h2]
    simp
  · rfl

/-- Claim C6: when the destination folder does not yet exist, each export
function (CSV, Excel, pickle) creates it before writing and the call
succeeds, leaving the exported content at the returned path. -/
theorem export_creates_missing_folder (fs : FS) (cwd : FilePath2)
    (df : DataFrame) (dd : List (String × DataFrame)) (obj : PyObj)
    (name folder : String)
    (hcsv : fs.existsPath (resolvePath (cwd ++ [folder])) = false)
    (hpkl : fs.existsPath (pickleDir cwd folder) = false) :
    ((save_dataframe_to_csv fs cwd df name folder).1.existsPath
        (resolvePath (cwd ++ [folder])) = true ∧
      (save_dataframe_to_csv fs cwd df name folder).1.lookup
          ((save_dataframe_to_csv fs cwd df name folder).2)
        = some (FileData.csvText df.toCsv)) ∧
    ((save_dict_to_excel fs cwd dd name folder).1.existsPath
        (resolvePath (cwd ++ [folder])) = true ∧
      (save_dict_to_excel fs cwd dd name folder).1.lookup
          ((save_dict_to_excel fs cwd dd name folder).2)
        = some (FileData.excel dd)) ∧
    ((export_to_pickle fs cwd obj name folder).1.existsPath
        (pickleDir cwd folder) = true ∧
      (export_to_pickle fs cwd obj name folder).1.lookup
          ((export_to_pickle fs cwd obj name folder).2)
        = some (FileData.pickled obj)) := by
  refine ⟨⟨?_, ?_⟩, ⟨?_, ?_⟩, ⟨?_, ?_⟩⟩
  · simp only [save_dataframe_to_csv]
    rw [if_neg (by simp [hcsv])]
    exact FS.existsPath_write_mono _ _ _ _ (FS.existsPath_makedirs_self _ _)
  · simp only [save_dataframe_to_csv]
    exact FS.lookup_write_self _ _ _
  · simp only [save_dict_to_excel]
    rw [if_neg (by simp [hcsv])]
    exact FS.existsPath_write_mono _ _ _ _ (FS.existsPath_makedirs_self _ _)
  · simp only [save_dict_to_excel]
    exact FS.lookup_write_self _ _ _
  · simp only [export_to_pickle]
    rw [if_neg (by simp [hpkl])]
    exact FS.existsPath_write_mono _ _ _ _ (FS.existsPath_makedirs_self _ _)
  · simp only [export_to_pickle]
    exact FS.lookup_write_self _ _ _

/-- Claim C6 witness: a concrete run of all three exporters on an empty
filesystem. -/
theorem export_creates_missing_folder_witness :
    (save_dataframe_to_csv ⟨[], []⟩ ["home", "proj"] ⟨["a"], [["1"]]⟩
        "report" "output").1.existsPath
        (resolvePath (["home", "proj"] ++ ["output"])) = true ∧
    (export_to_pickle ⟨[], []⟩ ["home", "proj"] PyObj.none "model"
        "artifacts").1.existsPath (pickleDir ["home", "proj"] "artifacts")
      = true :=
  ⟨(export_creates_missing_folder ⟨[], []⟩ ["home", "proj"] ⟨["a"], [["1"]]⟩
      [] PyObj.none "report" "output" (by decide) (by decide)).1.1,
    (export_creates_missing_folder ⟨[], []⟩ ["home", "proj"] ⟨["a"], [["1"]]⟩
      [] PyObj.none "model" "artifacts" (by decide) (by decide)).2.2.1⟩

/-- Claim C7: overwrite idempotence for CSV export: exporting table t1 and
then table t2 under the same name and folder yields the same destination path
as a fresh export of t2, and the file content there after the second call is
exactly the rendering of t2, equal to what the fresh export of t2 leaves,
independent of t1. -/
theorem save_csv_overwrite (fs : FS) (cwd : FilePath2) (t1 t2 : DataFrame)
    (name folder : String) :
    (save_dataframe_to_csv (save_dataframe_to_csv fs cwd t1 name folder).1
        cwd t2 name folder).2
      = (save_dataframe_to_csv fs cwd t2 name folder).2 ∧
    (save_dataframe_to_csv (save_dataframe_to_csv fs cwd t1 name folder).1
        cwd t2 name folder).1.lookup
        ((save_dataframe_to_csv fs cwd t2 name folder).2)
      = some (FileData.csvText t2.toCsv) ∧
    (save_dataframe_to_csv fs cwd t2 name folder).1.lookup
        ((save_dataframe_to_csv fs cwd t2 name folder).2)
      = some (FileData.csvText t2.toCsv) := by
  refine ⟨rfl, ?_, ?_⟩
  · simp only [save_dataframe_to_csv]
    exact FS.lookup_write_self _ _ _
  · simp only [save_dataframe_to_csv]
    exact FS.lookup_write_self _ _ _

theorem strContains_append_pickle (name : String) :
    strContains (name ++ ".pickle") ".pickle" = true := by
  rw [strContains_eq_true_iff]
  have h : (name ++ ".pickle").toList = name.toList ++ ".pickle".toList := by
    simp [String.toList, String.data_append]
  rw [h]
  exact (List.suffix_append _ _).isInfix

theorem pickleName_idem (name : String) :
    pickleName (pickleName name) = pickleName name := by
  unfold pickleName
  by_cases h : strContains name ".pickle" = true
  · simp [h]
  · simp only [Bool.not_eq_true] at h
    simp [h, strContains_append_pickle]

/-- Claim C8: the pickle helpers normalize by substring containment, not by
suffix: ".pickle" is appended exactly when the substring ".pickle" occurs
nowhere in the name, so "model.pickle.bak" — which does not END in ".pickle"
— is still used verbatim; and both helpers agree on the normalized name
(loading is invariant under pre-normalizing the name). -/
theorem pickle_suffix_containment (fs : FS) (cwd : FilePath2) (obj : PyObj)
    (name folder : String) :
    (".pickle".toList <:+: name.toList →
      (export_to_pickle fs cwd obj name folder).2
        = pickleDir cwd folder ++ [name]) ∧
    (¬ ".pickle".toList <:+: name.toList →
      (export_to_pickle fs cwd obj name folder).2
        = pickleDir cwd folder ++ [name ++ ".pickle"]) ∧
    (strEndsWith "model.pickle.bak" ".pickle" = false ∧
      (export_to_pickle fs cwd obj "model.pickle.bak" folder).2
        = pickleDir cwd folder ++ ["model.pickle.bak"]) ∧
    load_pickle_object fs cwd name folder
      = load_pickle_object fs cwd (pickleName name) folder := by
  refine ⟨?_, ?_, ⟨by decide, ?_⟩, ?_⟩
  · intro h
    have hb : strContains name ".pickle" = true :=
      (strContains_eq_true_iff _ _).2 h
    simp only [export_to_pickle, pickleName, if_pos hb]
  · intro h
    have hb : ¬ strContains name ".pickle" = true :=
      fun hc => h ((strContains_eq_true_iff _ _).1 hc)
    simp only [export_to_pickle, pickleName, if_neg hb]
  · have hb : strContains "model.pickle.bak" ".pickle" = true := by decide
    simp only [export_to_pickle, pickleName, if_pos hb]
  · simp only [load_pickle_object, pickleName_idem]

/-- Claim C8 witness: the name "model.pickle.bak" already contains ".pickle"
as a substring, so the exporter uses it verbatim. -/
theorem pickle_suffix_containment_witness :
    (export_to_pickle ⟨[], []⟩ ["home", "proj"] PyObj.none
        "model.pickle.bak" "artifacts").2
      = pickleDir ["home", "proj"] "artifacts" ++ ["model.pickle.bak"] :=
  (pickle_suffix_containment ⟨[], []⟩ ["home", "proj"] PyObj.none
    "model.pickle.bak" "artifacts").1 (by decide)

/-- Claim C9: the missing-file sentinel of `load_pickle_object` is exactly
Python's None (the bare `return`): loading a name whose file is absent and
loading a name under which None itself was pickled both return None, so the
two situations cannot be told apart from the return value alone. -/
theorem load_pickle_none_sentinel (fs fs2 : FS) (cwd : FilePath2)
    (name folder : String)
    (h : fs.existsPath (pickleDir cwd folder ++ [pickleName name]) = false) :
    load_pickle_object fs cwd name folder = Except.ok PyObj.none ∧
    load_pickle_object (export_to_pickle fs2 cwd PyObj.none name folder).1
        cwd name folder = Except.ok PyObj.none ∧
    load_pickle_object fs cwd name folder
      = load_pickle_object
          (export_to_pickle fs2 cwd PyObj.none name folder).1
          cwd name folder := by
  have h1 : load_pickle_object fs cwd name folder = Except.ok PyObj.none := by
    simp only [load_pickle_object]
    rw [if_pos (by simp [h])]
  have h2 : load_pickle_object
      (export_to_pickle fs2 cwd PyObj.none name folder).1 cwd name folder
      = Except.ok PyObj.none := by
    simp only [export_to_pickle, load_pickle_object]
    rw [if_neg (by simp [FS.existsPath_write_self])]
    rw [FS.lookup_write_self]
  exact ⟨h1, h2, h1.trans h2.symm⟩

/-- Claim C9 witness: an empty filesystem on one side, an export of None on
the other; the two loads return the identical value. -/
theorem load_pickle_none_sentinel_witness :
    load_pickle_object ⟨[], []⟩ ["home", "proj"] "m" "artifacts"
      = Except.ok PyObj.none ∧
    load_pickle_object
        (export_to_pickle ⟨[], []⟩ ["home", "proj"] PyObj.none "m"
          "artifacts").1 ["home", "proj"] "m" "artifacts"
      = Except.ok PyObj.none :=
  ⟨(load_pickle_none_sentinel ⟨[], []⟩ ⟨[], []⟩ ["home", "proj"] "m"
      "artifacts" (by decide)).1,
    (load_pickle_none_sentinel ⟨[], []⟩ ⟨[], []⟩ ["home", "proj"] "m"
      "artifacts" (by decide)).2.1⟩
